import Mathlib

/-!
Verification of the API-Gateway request pipeline.

A shallow embedding of the gateway's failure-control subsystems, translated
from the JavaScript source: the error mapper (`src/utils/errorHandler.js`),
the circuit breaker and upstream dispatcher (`src/layers/forwarding.js`),
the route resolver (`RoutingLayer` in `src/layers/forwarding.js`), the
method validator (`src/layers/entry.js`), and the rate limiter
(`RateLimitLayer` in `src/layers/auth.js`).

Machine numbers are modelled as `Nat`/`Int` (JS numbers stay small and
integral on every path modelled here); fallible operations return explicit
sum types; the mutable per-breaker and per-store state is threaded
explicitly.
-/

namespace Gateway

/-! ## Errors (`src/utils/errorHandler.js`)

A JavaScript error value, as inspected by the gateway.  The fields mirror
the properties the source reads: `name` (set by the `Error` subclass),
`code` (Node/axios errno such as `ECONNREFUSED`), the `GatewayError`
fields `errorCode` / `statusCode`, and — for axios errors that carry a
response — the response's HTTP status. -/
structure JsError where
  name : String := "Error"
  message : String := ""
  code : Option String := none
  errorCode : Option String := none
  statusCode : Option Nat := none
  response : Option Nat := none
  deriving Repr, DecidableEq

/-- Constructor `new GatewayError(message, statusCode, errorCode, details)`:
sets `name = 'GatewayError'` and the gateway fields; it carries no
errno `code` and no axios `response`. -/
def mkGatewayError (message : String) (statusCode : Nat) (errorCode : String) : JsError :=
  { name := "GatewayError", message := message,
    errorCode := some errorCode, statusCode := some statusCode }

/-- Source `ErrorHandler.createError` (errorHandler.js line 13). -/
def createError (message : String) (statusCode : Nat) (errorCode : String) : JsError :=
  mkGatewayError message statusCode errorCode

/-- Source `ErrorHandler.handleCircuitBreakerError` (errorHandler.js lines 109-120). -/
def handleCircuitBreakerError (serviceName : String) : JsError :=
  mkGatewayError ("Service " ++ serviceName ++ " is temporarily unavailable")
    503 "CIRCUIT_BREAKER_OPEN"

/-- Source `ErrorHandler.handleRateLimitError` (errorHandler.js lines 96-107). -/
def handleRateLimitError : JsError :=
  mkGatewayError "Rate limit exceeded" 429 "RATE_LIMIT_EXCEEDED"

/-- Source `ErrorHandler.mapUpstreamError` (errorHandler.js lines 17-58).
The branches test, in source order: `error.code === 'ECONNREFUSED'`;
`error.code === 'ETIMEDOUT' || error.name === 'TimeoutError'`;
`error.response` (with `status || 502`, then `>= 500` collapsed to 502);
otherwise `BAD_GATEWAY`. -/
def mapUpstreamError (error : JsError) (serviceName : String) : JsError :=
  if error.code = some "ECONNREFUSED" then
    mkGatewayError ("Service " ++ serviceName ++ " is unavailable") 503 "SERVICE_UNAVAILABLE"
  else if error.code = some "ETIMEDOUT" ∨ error.name = "TimeoutError" then
    mkGatewayError ("Service " ++ serviceName ++ " request timed out") 504 "GATEWAY_TIMEOUT"
  else
    match error.response with
    | some status =>
        let statusCode := if status = 0 then 502 else status
        let mappedStatusCode := if statusCode ≥ 500 then 502 else statusCode
        mkGatewayError ("Upstream service error: " ++ error.message)
          mappedStatusCode "UPSTREAM_ERROR"
    | none =>
        mkGatewayError ("Unknown error from service " ++ serviceName) 502 "BAD_GATEWAY"

/-! ## Circuit breaker (`src/layers/forwarding.js` lines 12-122) -/

/-- Source `CIRCUIT_STATES`: `'closed' | 'open' | 'half-open'`. -/
inductive CBState where
  | closed
  | opened
  | halfOpen
  deriving Repr, DecidableEq

/-- The mutable fields of a `CircuitBreaker` instance together with its
configuration (`failureThreshold`, `recoveryTimeout`). -/
structure Breaker where
  state : CBState
  failureCount : Nat
  successCount : Nat
  lastFailureTime : Option Nat
  nextAttempt : Option Nat
  failureThreshold : Nat
  recoveryTimeout : Nat
  deriving Repr, DecidableEq

/-- The `CircuitBreaker` constructor (forwarding.js lines 13-24). -/
def initBreaker (failureThreshold recoveryTimeout : Nat) : Breaker :=
  { state := .closed, failureCount := 0, successCount := 0,
    lastFailureTime := none, nextAttempt := none,
    failureThreshold := failureThreshold, recoveryTimeout := recoveryTimeout }

/-- Source `CircuitBreaker.onSuccess` (forwarding.js lines 53-75). -/
def onSuccess (cb : Breaker) : Breaker :=
  let cb := { cb with failureCount := 0 }
  if cb.state = .halfOpen then
    let cb := { cb with successCount := cb.successCount + 1 }
    if cb.successCount ≥ 3 then { cb with state := .closed } else cb
  else cb

/-- Source `CircuitBreaker.onFailure` (forwarding.js lines 77-103); `now` is the
`Date.now()` read at the failure site. -/
def onFailure (cb : Breaker) (now : Nat) : Breaker :=
  let cb := { cb with failureCount := cb.failureCount + 1, lastFailureTime := some now }
  if cb.state = .halfOpen then
    { cb with state := .opened, nextAttempt := some (now + cb.recoveryTimeout) }
  else if cb.failureCount ≥ cb.failureThreshold then
    { cb with state := .opened, nextAttempt := some (now + cb.recoveryTimeout) }
  else cb

/-- Outcome of one `CircuitBreaker.execute` call: rejected without invoking
the wrapped call, or invoked and the wrapped call succeeded / failed. -/
inductive ExecOutcome where
  | rejected
  | succeeded
  | failed
  deriving Repr, DecidableEq

/-- Source `CircuitBreaker.execute` (forwarding.js lines 26-51), with the wrapped
call abstracted to its result `callOk`.  In the source `Date.now() <
this.nextAttempt` compares against `null` (which coerces to 0) when
`nextAttempt` was never set; `Option.getD 0` mirrors that. -/
def execute (cb : Breaker) (now : Nat) (callOk : Bool) : ExecOutcome × Breaker :=
  if cb.state = .opened ∧ now < cb.nextAttempt.getD 0 then
    (.rejected, cb)
  else
    let cb1 := if cb.state = .opened then { cb with state := .halfOpen, successCount := 0 } else cb
    if callOk then (.succeeded, onSuccess cb1) else (.failed, onFailure cb1 now)

/-- Fold a sequence of failing calls (at the given times) through the breaker. -/
def runFailures (cb : Breaker) (times : List Nat) : Breaker :=
  times.foldl (fun b t => (execute b t false).2) cb

/-- Fold a sequence of successful calls through the breaker (the time of a
successful call is never read by `onSuccess`). -/
def runSuccesses : Breaker → Nat → Breaker
  | cb, 0 => cb
  | cb, n + 1 => runSuccesses (execute cb 0 true).2 n

/-! ## Upstream dispatcher with retry (`ForwardingLayer`, forwarding.js)

One attempt of the retry loop either is rejected by the breaker, resolves
with an HTTP response, or fails at the transport level.  The axios
instance is created with `validateStatus: null` (both in
`createAxiosInstance`, line 134, and in the per-request config of
`makeRequest`, line 234): axios then settles *every* HTTP response as a
resolved promise regardless of status, so a response — of any status — is
never an error; only transport-level rejections (errno `code`, no
`response`) reach the catch paths. -/
inductive AttemptOutcome where
  | rejected
  | response (status : Nat)
  | transport (code : String) (name : String)
  deriving Repr, DecidableEq

/-- The error `makeRequest` ends up throwing for a transport-level axios
rejection (forwarding.js lines 245-258): `ECONNABORTED` is converted to
`createError('Request timeout', 504, 'GATEWAY_TIMEOUT', ...)`, anything
else is rethrown unchanged. -/
def transportError (code name : String) : JsError :=
  if code = "ECONNABORTED" then
    createError "Request timeout" 504 "GATEWAY_TIMEOUT"
  else
    { name := name, message := name, code := some code }

/-- The error thrown by / value returned from one attempt:
`circuitBreaker.execute(() => this.makeRequest(req, route))`.
A breaker rejection throws `handleCircuitBreakerError`; a resolved
response is returned; a transport-level rejection throws
`transportError`. -/
def attemptResult (o : AttemptOutcome) (serviceName : String) : Except JsError Nat :=
  match o with
  | .rejected => .error (handleCircuitBreakerError serviceName)
  | .response status => .ok status
  | .transport code name => .error (transportError code name)

/-- Result of `ForwardingLayer.forwardRequest`: the upstream response
forwarded to the client, a thrown (mapped) error, or — unreachably, when
the attempt budget is zero — the `TypeError` that
`mapUpstreamError(null)` would raise. -/
inductive ForwardResult where
  | forwarded (status : Nat)
  | thrown (e : JsError)
  | crashed
  deriving Repr, DecidableEq

/-- The loop-exit condition of forwarding.js lines 218-221:
`error.errorCode === 'CIRCUIT_BREAKER_OPEN' || (error.response &&
[400, 401, 403, 404, 422].includes(error.response.status))`. -/
def terminalError (e : JsError) : Bool :=
  e.errorCode == some "CIRCUIT_BREAKER_OPEN" ||
    (match e.response with
     | some s => [400, 401, 403, 404, 422].contains s
     | none => false)

/-- The retry loop of `forwardRequest` (forwarding.js lines 164-225) over
the per-attempt outcomes, threading `lastError`; returns the result and
the number of attempts made. -/
def forwardLoop (serviceName : String) :
    List AttemptOutcome → Option JsError → ForwardResult × Nat
  | [], lastError =>
      (match lastError with
       | some e => .thrown (mapUpstreamError e serviceName)
       | none => .crashed, 0)
  | o :: rest, _ =>
      match attemptResult o serviceName with
      | .ok status => (.forwarded status, 1)
      | .error e =>
          if terminalError e then
            (.thrown (mapUpstreamError e serviceName), 1)
          else
            let r := forwardLoop serviceName rest (some e)
            (r.1, r.2 + 1)

/-- Source `ForwardingLayer.forwardRequest` with the attempt budget `retries + 1`
realised as the length of the outcome list (`for attempt = 0..retries`). -/
def forwardRequest (serviceName : String) (outcomes : List AttemptOutcome) :
    ForwardResult × Nat :=
  forwardLoop serviceName outcomes none

/-- The backoff base delay before a zero-based retry attempt
(forwarding.js line 168): `Math.min(1000 * Math.pow(2, attempt - 1), 10000)`. -/
def retryDelay (attempt : Nat) : Nat :=
  min (1000 * 2 ^ (attempt - 1)) 10000

/-- Delay plus jitter (forwarding.js lines 168-169):
`delay + Math.random() * 0.1 * delay`, with the `Math.random()` draw `r`. -/
def retryWait (r : ℚ) (attempt : Nat) : ℚ :=
  retryDelay attempt + r * (1 / 10) * retryDelay attempt

/-! ## Route resolver (`RoutingLayer`, forwarding.js) -/

/-- An entry of `this.compiledRoutes`: the allowed method set and the
compiled `path-to-regexp` pattern, abstracted to the predicate
`fun path => route.regexp.exec(path) !== null`. -/
structure CompiledRoute where
  methods : List String
  matchesPath : String → Bool

/-- Source `RoutingLayer.findRoute` (forwarding.js lines 429-447): walk the
compiled routes in declaration order, skip an entry whose method set does
not contain the request method (`continue`), and return the first whose
pattern matchesPath the path. -/
def findRoute : List CompiledRoute → String → String → Option CompiledRoute
  | [], _, _ => none
  | route :: rest, method, path =>
      if route.methods.contains method && route.matchesPath path then some route
      else findRoute rest method path

/-- The `RoutingLayer.middleware` failure branch (forwarding.js lines
535-556): no match yields
`createError('No route found ...', 404, 'ROUTE_NOT_FOUND', ...)`. -/
def routeResolve (routes : List CompiledRoute) (method path : String) :
    Except JsError CompiledRoute :=
  match findRoute routes method path with
  | none => .error (createError ("No route found for " ++ method ++ " " ++ path)
      404 "ROUTE_NOT_FOUND")
  | some r => .ok r

/-- Source `EntryLayer.validateMethod`'s allow-list (entry.js line 62). -/
def allowedMethods : List String :=
  ["GET", "POST", "PUT", "DELETE", "PATCH", "OPTIONS", "HEAD"]

/-- Source `EntryLayer.validateMethod` (entry.js lines 61-74): an HTTP verb
outside the global allow-list is answered directly with status 405;
otherwise the request proceeds. -/
def validateMethod (method : String) : Option (Nat × String) :=
  if allowedMethods.contains method then none
  else some (405, "Method Not Allowed")

/-! ## Rate limiter (`RateLimitLayer`, auth.js lines 249-495) -/

/-- A tier's configuration (`config.rateLimiting.tiers[...]`). -/
structure TierConfig where
  requests : Nat
  windowMs : Nat
  deriving Repr, DecidableEq

/-- The decision object returned by `checkRateLimit`.  `remaining` is an
`Int` because the fail-open branches return `-1`; the `tier` field is
absent (`none`) on the fail-open returns, which omit it. -/
structure RLDecision where
  allowed : Bool
  remaining : Int
  resetTime : Nat
  tier : Option String
  deriving Repr, DecidableEq

/-- The counter store (Redis) as seen through the operations the limiter
uses: an integer counter per key and a per-key expiry (seconds). -/
structure Store where
  counts : String → Option Nat
  expiry : String → Option Nat

/-- Source `RateLimitLayer.getRateLimitKey` (auth.js lines 298-304), with the
identifier (`user:<id>` or `ip:<clientIp>`) already computed. -/
def getRateLimitKey (tier identifier : String) : String :=
  "rate_limit:" ++ tier ++ ":" ++ identifier

/-- Computation `windowStart = Math.floor(now / windowMs) * windowMs` (auth.js line 319). -/
def windowStartOf (cfg : TierConfig) (now : Nat) : Nat :=
  now / cfg.windowMs * cfg.windowMs

/-- Key `windowKey = rate_limit:<tier>:<identifier>:<windowStart>` (auth.js
lines 316-320). -/
def windowKeyOf (tierName identifier : String) (cfg : TierConfig) (now : Nat) : String :=
  getRateLimitKey tierName identifier ++ ":" ++ toString (windowStartOf cfg now)

/-- Source `RateLimitLayer.checkRateLimit` (auth.js lines 310-382).  The two
store round trips can each fail (the `try`/`catch` around the body);
`getFails` / `incrFails` inject those failures.  When Redis is not
connected the check is skipped up front (lines 311-314). -/
def checkRateLimit (connected : Bool) (store : Store) (getFails incrFails : Bool)
    (tierName identifier : String) (cfg : TierConfig) (now : Nat) :
    RLDecision × Store :=
  if ¬connected then
    ({ allowed := true, remaining := -1, resetTime := now + 60000, tier := none }, store)
  else
    let windowStart := windowStartOf cfg now
    let windowKey := windowKeyOf tierName identifier cfg now
    if getFails then
      ({ allowed := true, remaining := -1, resetTime := now + cfg.windowMs, tier := none },
        store)
    else
      let currentCount := (store.counts windowKey).getD 0
      if currentCount ≥ cfg.requests then
        ({ allowed := false, remaining := 0, resetTime := windowStart + cfg.windowMs,
           tier := some tierName }, store)
      else if incrFails then
        ({ allowed := true, remaining := -1, resetTime := now + cfg.windowMs, tier := none },
          store)
      else
        let store' : Store :=
          { counts := fun k => if k = windowKey then some (currentCount + 1) else store.counts k,
            expiry := fun k =>
              if k = windowKey then some ((cfg.windowMs + 999) / 1000) else store.expiry k }
        ({ allowed := true, remaining := (cfg.requests : Int) - currentCount - 1,
           resetTime := windowStart + cfg.windowMs, tier := some tierName }, store')

/-- What `RateLimitLayer.middleware` (auth.js lines 384-414) does with a
decision: a denied decision forwards `handleRateLimitError` into the error
chain, an allowed one calls `next()` and the pipeline proceeds. -/
inductive PipelineStep where
  | proceed
  | reject (e : JsError)
  deriving Repr, DecidableEq

/-- The decision branch of `RateLimitLayer.middleware` (auth.js lines
395-404); any exception inside the middleware body is caught and also
results in a plain `next()` (lines 405-412). -/
def rateLimitMiddlewareStep (d : RLDecision) : PipelineStep :=
  if d.allowed then .proceed else .reject handleRateLimitError

/-! ## Target URL construction (`RoutingLayer.buildTargetUrl`,
forwarding.js lines 464-482)

Strings are modelled as `List Char`.  The source strips the matched route
prefix with `req.path.replace(new RegExp('^' + originalPath.replace(/\/\*$/, '')), '')`:
for a literal route pattern (no regex metacharacters — every pattern the
strip is specified for) this removes the pattern, minus a trailing `/\x2a`,
as a leading substring of the path when it is one, and leaves the path
unchanged otherwise. -/

/-- Step `route.originalPath.replace(/\/\*$/, '')`: drop a trailing `/\x2a`. -/
def stripStar (pat : List Char) : List Char :=
  if pat.reverse.take 2 = ['*', '/'] then pat.dropLast.dropLast else pat

/-- Step `target.replace(/\/$/, '')`: drop one trailing slash. -/
def stripTrailingSlash (s : List Char) : List Char :=
  if s.getLast? = some '/' then s.dropLast else s

/-- Source `RoutingLayer.buildTargetUrl` for a literal route pattern; `query` is
the serialized query string (`new URLSearchParams(req.query).toString()`),
empty when `req.query` has no keys. -/
def buildTargetUrl (stripPath : Bool) (pattern target path query : List Char) :
    List Char :=
  let targetPath :=
    if stripPath then
      let p := stripStar pattern
      let stripped := if p.isPrefixOf path then path.drop p.length else path
      if stripped = [] then ['/'] else stripped
    else path
  let targetPath := if targetPath.head? = some '/' then targetPath else '/' :: targetPath
  let targetBase := stripTrailingSlash target
  let targetUrl := targetBase ++ targetPath
  if query = [] then targetUrl else targetUrl ++ '?' :: query

/-- Wrapper for `buildTargetUrl` over `String`s. -/
def buildTargetUrlS (stripPath : Bool) (pattern target path query : String) : String :=
  ⟨buildTargetUrl stripPath pattern.toList target.toList path.toList query.toList⟩

/-! ## Route normalization (`RoutingLayer.initializeRoutes` lines 404-415,
`RoutingLayer.addRoute` lines 606-642, `RoutingLayer.validateRoute`
lines 483-519) -/

/-- A raw route entry as it appears in `config.routes` or is passed to
`addRoute`; absent optional fields are `none`.  `timeout` and `retries`
are `Int` because the source's validation distinguishes negative values. -/
structure RouteConfig where
  path : String := ""
  target : String := ""
  timeout : Option Int := none
  retries : Option Int := none
  authRequired : Option Bool := none
  rateLimitTier : Option String := none
  methods : Option (List String) := none
  stripPath : Option Bool := none
  preserveHost : Option Bool := none
  changeOrigin : Option Bool := none
  deriving Repr, DecidableEq

/-- A route after normalization. -/
structure NormalizedRoute where
  path : String
  target : String
  timeout : Int
  retries : Int
  authRequired : Bool
  rateLimitTier : String
  methods : List String
  stripPath : Bool
  preserveHost : Bool
  changeOrigin : Bool
  deriving Repr, DecidableEq

/-- JS `x || d` on an optional number: `0` (and an absent value) is falsy
and is replaced by the default. -/
def orFalsyInt (o : Option Int) (d : Int) : Int :=
  match o with
  | some n => if n = 0 then d else n
  | none => d

/-- JS `x || d` on an optional string: the empty string is falsy. -/
def orFalsyStr (o : Option String) (d : String) : String :=
  match o with
  | some s => if s = "" then d else s
  | none => d

/-- The shared normalization applied by both `initializeRoutes` and
`addRoute`:
`timeout: route.timeout || 5000`, `retries: route.retries || 3`,
`authRequired: route.authRequired !== false`,
`rateLimitTier: route.rateLimitTier || 'basic'`,
`methods: route.methods || ['GET']`, `stripPath: route.stripPath !== false`,
`preserveHost: route.preserveHost === true`,
`changeOrigin: route.changeOrigin !== false`. -/
def normalizeRoute (r : RouteConfig) : NormalizedRoute :=
  { path := r.path
    target := r.target
    timeout := orFalsyInt r.timeout 5000
    retries := orFalsyInt r.retries 3
    authRequired := r.authRequired ≠ some false
    rateLimitTier := orFalsyStr r.rateLimitTier "basic"
    methods := (r.methods.getD ["GET"])
    stripPath := r.stripPath ≠ some false
    preserveHost := r.preserveHost = some true
    changeOrigin := r.changeOrigin ≠ some false }

/-- Source `RoutingLayer.initializeRoutes`: normalize every configured route. -/
def initializeRoutes (cfg : List RouteConfig) : List NormalizedRoute :=
  cfg.map normalizeRoute

/-- Source `RoutingLayer.validateRoute` (forwarding.js lines 483-519).  `urlOk`
abstracts `new URL(target)` succeeding.  Note every numeric check is
guarded by the value's own truthiness (`route.timeout && ...`,
`route.retries && ...`), so a zero value skips its check. -/
def validateRoute (urlOk : String → Bool) (r : RouteConfig) : List String :=
  let errs := if r.path = "" then ["Route path is required"] else []
  let errs := errs ++ (if r.target = "" then ["Route target is required"] else [])
  let errs := errs ++
    (if r.target ≠ "" ∧ ¬urlOk r.target then ["Route target must be a valid URL"] else [])
  let errs := errs ++
    (match r.timeout with
     | some t => if t ≠ 0 ∧ t ≤ 0 then ["Route timeout must be a positive number"] else []
     | none => [])
  let errs := errs ++
    (match r.retries with
     | some n => if n ≠ 0 ∧ n < 0 then ["Route retries must be a non-negative number"] else []
     | none => [])
  let validMethods := ["GET", "POST", "PUT", "DELETE", "PATCH", "HEAD", "OPTIONS"]
  let errs := errs ++
    (match r.methods with
     | some ms =>
         let invalid := ms.filter (fun m => ¬validMethods.contains m)
         if invalid ≠ [] then ["Invalid HTTP methods: " ++ String.intercalate ", " invalid]
         else []
     | none => [])
  errs

/-- Source `RoutingLayer.addRoute` (forwarding.js lines 606-642): reject on
validation errors, otherwise append the normalized route. -/
def addRoute (urlOk : String → Bool) (routes : List NormalizedRoute)
    (r : RouteConfig) : Except JsError (List NormalizedRoute × NormalizedRoute) :=
  if validateRoute urlOk r ≠ [] then
    .error (createError "Invalid route configuration" 400 "INVALID_ROUTE_CONFIG")
  else
    let route := normalizeRoute r
    .ok (routes ++ [route], route)

/-! ## Supporting lemmas -/

/-- In the CLOSED state, each failure below the threshold keeps the breaker
CLOSED and advances only `failureCount` (and `lastFailureTime`). -/
theorem runFailures_closed_stays (ts : List Nat) :
    ∀ cb : Breaker, cb.state = .closed →
      cb.failureCount + ts.length < cb.failureThreshold →
      (runFailures cb ts).state = .closed ∧
      (runFailures cb ts).failureCount = cb.failureCount + ts.length ∧
      (runFailures cb ts).failureThreshold = cb.failureThreshold ∧
      (runFailures cb ts).recoveryTimeout = cb.recoveryTimeout := by
  induction ts with
  | nil => intro cb hs _; simp [runFailures, hs]
  | cons t ts ih =>
      intro cb hs hlt
      have hlen : (t :: ts).length = ts.length + 1 := rfl
      rw [hlen] at hlt
      have hstep : (execute cb t false).2 =
          { cb with failureCount := cb.failureCount + 1, lastFailureTime := some t } := by
        have h1 : ¬(cb.state = CBState.opened ∧ t < cb.nextAttempt.getD 0) := by
          simp [hs]
        have h2 : ¬(cb.failureCount + 1 ≥ cb.failureThreshold) := by omega
        simp [execute, onFailure, hs, h1, h2]
      have hrun : runFailures cb (t :: ts) = runFailures (execute cb t false).2 ts := by
        simp [runFailures, List.foldl_cons]
      rw [hrun, hstep]
      obtain ⟨h1, h2, h3, h4⟩ :=
        ih { cb with failureCount := cb.failureCount + 1, lastFailureTime := some t }
          (by simp [hs]) (by simp; omega)
      exact ⟨h1, by rw [h2]; simp; omega, h3, h4⟩

/-- A failure of a CLOSED breaker whose incremented count reaches the
threshold opens it with `nextAttempt = now + recoveryTimeout`. -/
theorem execute_closed_failure_opens (cb : Breaker) (now : Nat)
    (hs : cb.state = .closed) (hth : cb.failureCount + 1 ≥ cb.failureThreshold) :
    (execute cb now false).2.state = .opened ∧
    (execute cb now false).2.nextAttempt = some (now + cb.recoveryTimeout) := by
  have h1 : ¬(cb.state = CBState.opened ∧ now < cb.nextAttempt.getD 0) := by simp [hs]
  simp [execute, onFailure, hs, h1, hth]

/-- The attempt count of the retry loop never exceeds the attempt budget
(the length of the outcome list). -/
theorem forwardLoop_attempts_le (serviceName : String) :
    ∀ (outcomes : List AttemptOutcome) (lastError : Option JsError),
      (forwardLoop serviceName outcomes lastError).2 ≤ outcomes.length := by
  intro outcomes
  induction outcomes with
  | nil => intro lastError; cases lastError <;> simp [forwardLoop]
  | cons o rest ih =>
      intro lastError
      simp only [forwardLoop]
      cases attemptResult o serviceName with
      | ok status => simp
      | error e =>
          by_cases ht : terminalError e = true
          · simp [ht]
          · simp only [ht, Bool.false_eq_true, if_false, List.length_cons]
            have := ih (some e)
            omega

/-! ## Claims -/

/-- C1: the per-upstream circuit breaker realises the specified state
machine: a fresh breaker is CLOSED; from CLOSED with a clean count,
`failureThreshold` consecutive failures (the last at time `t`) leave it
OPEN with `nextAttempt = t + recoveryTimeout`; while OPEN with
`now < nextAttempt` every call is rejected and the breaker (in particular
`failureCount`) is left untouched, the wrapped call not invoked; the first
call with `now ≥ nextAttempt` switches to HALF_OPEN with `successCount`
reset to 0 and invokes the call (a success leaves it HALF_OPEN with one
counted success, a failure re-opens it with a fresh `nextAttempt`); in
HALF_OPEN three consecutive successes close the breaker while any single
failure returns it to OPEN. -/
theorem C1_circuit_breaker_state_machine :
    (∀ th rt, (initBreaker th rt).state = .closed ∧ (initBreaker th rt).failureCount = 0) ∧
    (∀ (cb : Breaker) (ts : List Nat) (t : Nat), cb.state = .closed → cb.failureCount = 0 →
      ts.length + 1 = cb.failureThreshold →
      (runFailures cb (ts ++ [t])).state = .opened ∧
      (runFailures cb (ts ++ [t])).nextAttempt = some (t + cb.recoveryTimeout)) ∧
    (∀ (cb : Breaker) (now : Nat) (ok : Bool) (t : Nat),
      cb.state = .opened → cb.nextAttempt = some t → now < t →
      execute cb now ok = (.rejected, cb)) ∧
    (∀ (cb : Breaker) (now : Nat), cb.state = .opened → cb.nextAttempt.getD 0 ≤ now →
      ((execute cb now true).1 = .succeeded ∧
        (execute cb now true).2.state = .halfOpen ∧
        (execute cb now true).2.successCount = 1 ∧
        (execute cb now true).2.failureCount = 0) ∧
      ((execute cb now false).1 = .failed ∧
        (execute cb now false).2.state = .opened ∧
        (execute cb now false).2.successCount = 0 ∧
        (execute cb now false).2.nextAttempt = some (now + cb.recoveryTimeout))) ∧
    (∀ cb : Breaker, cb.state = .halfOpen → cb.successCount = 0 →
      (runSuccesses cb 1).state = .halfOpen ∧ (runSuccesses cb 2).state = .halfOpen ∧
      (runSuccesses cb 3).state = .closed) ∧
    (∀ (cb : Breaker) (now : Nat), cb.state = .halfOpen →
      (execute cb now false).1 = .failed ∧
      (execute cb now false).2.state = .opened ∧
      (execute cb now false).2.nextAttempt = some (now + cb.recoveryTimeout)) := by
  refine ⟨?_, ?_, ?_, ?_, ?_, ?_⟩
  · intro th rt; exact ⟨rfl, rfl⟩
  · intro cb ts t hs hc hth
    have hsplit : runFailures cb (ts ++ [t]) = (execute (runFailures cb ts) t false).2 := by
      simp [runFailures, List.foldl_append]
    obtain ⟨h1, h2, h3, h4⟩ := runFailures_closed_stays ts cb hs (by omega)
    have hopen := execute_closed_failure_opens (runFailures cb ts) t h1 (by omega)
    rw [hsplit]
    exact ⟨hopen.1, by rw [hopen.2, h4]⟩
  · intro cb now ok t hs hna hlt
    have hcond : cb.state = CBState.opened ∧ now < cb.nextAttempt.getD 0 := by
      rw [hna]; exact ⟨hs, hlt⟩
    simp [execute, hcond]
  · intro cb now hs hle
    have hnl : ¬now < cb.nextAttempt.getD 0 := not_lt.mpr hle
    constructor
    · simp [execute, hnl, hs, onSuccess]
    · simp [execute, hnl, hs, onFailure]
  · intro cb hs hc
    have h1 : ¬(cb.state = CBState.opened ∧ (0 : Nat) < cb.nextAttempt.getD 0) := by
      simp [hs]
    refine ⟨?_, ?_, ?_⟩ <;>
      simp [runSuccesses, execute, onSuccess, h1, hs, hc]
  · intro cb now hs
    have h1 : ¬(cb.state = CBState.opened ∧ now < cb.nextAttempt.getD 0) := by
      simp [hs]
    simp [execute, onFailure, h1, hs]

/-- Witness for C1 at concrete inputs: threshold 2 with failures at times
5 and 7 opens the breaker until 30007; a call at time 100 is rejected
unchanged; the probe at 30007 goes HALF_OPEN; three successes from
HALF_OPEN close it; a HALF_OPEN failure at time 40 re-opens until 30040. -/
theorem C1_circuit_breaker_state_machine_witness :
    (runFailures (initBreaker 2 30000) ([5] ++ [7])).state = CBState.opened ∧
    (runFailures (initBreaker 2 30000) ([5] ++ [7])).nextAttempt = some (7 + 30000) ∧
    execute (Breaker.mk .opened 2 0 (some 7) (some 30007) 2 30000) 100 true =
      (.rejected, Breaker.mk .opened 2 0 (some 7) (some 30007) 2 30000) ∧
    (execute (Breaker.mk .opened 2 0 (some 7) (some 30007) 2 30000) 30007 true).2.state =
      CBState.halfOpen ∧
    (runSuccesses (Breaker.mk .halfOpen 0 0 (some 7) (some 30007) 2 30000) 3).state =
      CBState.closed ∧
    (execute (Breaker.mk .halfOpen 0 2 none none 2 30000) 40 false).2.nextAttempt =
      some (40 + 30000) := by
  obtain ⟨h1, h2, h3, h4, h5, h6⟩ := C1_circuit_breaker_state_machine
  obtain ⟨g1, g2⟩ := h2 (initBreaker 2 30000) [5] 7 rfl rfl rfl
  refine ⟨g1, g2, ?_, ?_, ?_, ?_⟩
  · exact h3 _ 100 true 30007 rfl rfl (by decide)
  · exact ((h4 _ 30007 rfl (by decide)).1).2.1
  · exact (h5 _ rfl rfl).2.2
  · exact (h6 _ 40 rfl).2.2

/-- A transport-level error never satisfies the loop's terminal test: its
`errorCode` is either absent or `GATEWAY_TIMEOUT`, and it carries no
response. -/
theorem terminalError_transportError (code name : String) :
    terminalError (transportError code name) = false := by
  by_cases h : code = "ECONNABORTED" <;>
    simp [transportError, terminalError, createError, mkGatewayError, h]

/-- A run of transport-only attempt outcomes exhausts the attempt budget
and ends by mapping the last error, whatever `lastError` it started with. -/
theorem forwardLoop_all_transport (serviceName : String) :
    ∀ (pre : List AttemptOutcome) (code name : String) (lastError : Option JsError),
      (∀ o ∈ pre, ∃ c n, o = AttemptOutcome.transport c n) →
      forwardLoop serviceName (pre ++ [.transport code name]) lastError =
        (.thrown (mapUpstreamError (transportError code name) serviceName),
          pre.length + 1) := by
  intro pre
  induction pre with
  | nil =>
      intro code name lastError _
      simp [forwardLoop, attemptResult, terminalError_transportError]
  | cons o rest ih =>
      intro code name lastError hall
      obtain ⟨c, n, rfl⟩ := hall o (by simp)
      have hrest : ∀ o ∈ rest, ∃ c n, o = AttemptOutcome.transport c n := by
        intro x hx; exact hall x (by simp [hx])
      simp [forwardLoop, attemptResult, terminalError_transportError,
        ih code name (some (transportError c n)) hrest]

/-- C2 as stated is false: a 5xx upstream response is not retried until the
budget is exhausted and no mapped error is surfaced.  With a budget of
`retries = 3` (four attempts) and the upstream answering 500 every time,
the dispatcher makes exactly one attempt and forwards the 500 response as
a success (the axios instance is built with `validateStatus: null`, so
every HTTP status resolves). -/
theorem C2_counterexample_5xx_not_retried :
    forwardRequest "user-service:80" (List.replicate 4 (.response 500)) =
      (.forwarded 500, 1) := by
  rfl

/-- C2 (amended): the retry loop never retries after a breaker rejection,
which terminates the loop with the mapped rejection error after one
attempt; an upstream HTTP response of *any* status — the listed
{400, 401, 403, 404, 422} but equally other 4xx and all 5xx — is resolved
as a success (`validateStatus: null`) and forwarded after one attempt,
never retried and never surfaced as an error; only transport-level
failures (connection refused, timeout, network errors) are retried, until
the budget of `retries + 1` attempts is exhausted, after which the last
error is mapped through `mapUpstreamError` and surfaced; the attempt
count never exceeds the budget. -/
theorem C2_retry_terminal_conditions :
    (∀ (serviceName : String) (status : Nat) (rest : List AttemptOutcome),
      forwardRequest serviceName (.response status :: rest) = (.forwarded status, 1)) ∧
    (∀ (serviceName : String) (rest : List AttemptOutcome),
      forwardRequest serviceName (.rejected :: rest) =
        (.thrown (mapUpstreamError (handleCircuitBreakerError serviceName) serviceName), 1)) ∧
    (∀ (serviceName code name : String) (pre : List AttemptOutcome),
      (∀ o ∈ pre, ∃ c n, o = AttemptOutcome.transport c n) →
      forwardRequest serviceName (pre ++ [.transport code name]) =
        (.thrown (mapUpstreamError (transportError code name) serviceName),
          pre.length + 1)) ∧
    (∀ (serviceName : String) (outcomes : List AttemptOutcome),
      (forwardRequest serviceName outcomes).2 ≤ outcomes.length) := by
  refine ⟨?_, ?_, ?_, ?_⟩
  · intro serviceName status rest
    simp [forwardRequest, forwardLoop, attemptResult]
  · intro serviceName rest
    simp [forwardRequest, forwardLoop, attemptResult, terminalError,
      handleCircuitBreakerError, mkGatewayError]
  · intro serviceName code name pre hall
    exact forwardLoop_all_transport serviceName pre code name none hall
  · intro serviceName outcomes
    exact forwardLoop_attempts_le serviceName outcomes none

/-- Witness for C2 (amended) at concrete inputs: a 404 response is
forwarded unretried; a breaker rejection terminates at once; two
connection-refused attempts followed by a timeout exhaust a three-attempt
budget and surface the mapped last error; attempts stay within budget. -/
theorem C2_retry_terminal_conditions_witness :
    forwardRequest "svc" [.response 404, .response 200] = (.forwarded 404, 1) ∧
    forwardRequest "svc" [.rejected, .response 200] =
      (.thrown (mapUpstreamError (handleCircuitBreakerError "svc") "svc"), 1) ∧
    forwardRequest "svc"
        ([.transport "ECONNREFUSED" "Error", .transport "ECONNREFUSED" "Error"] ++
          [.transport "ECONNABORTED" "Error"]) =
      (.thrown (mapUpstreamError (transportError "ECONNABORTED" "Error") "svc"), 3) ∧
    (forwardRequest "svc" [.response 404, .response 200]).2 ≤ 2 := by
  obtain ⟨h1, h2, h3, h4⟩ := C2_retry_terminal_conditions
  refine ⟨h1 "svc" 404 [.response 200], h2 "svc" [.response 200], ?_, h4 "svc" _⟩
  exact h3 "svc" "ECONNABORTED" "Error"
    [.transport "ECONNREFUSED" "Error", .transport "ECONNREFUSED" "Error"]
    (by intro o ho; simp at ho; rcases ho with rfl; exact ⟨_, _, rfl⟩)

/-- C3: with the counter store reachable and all round trips succeeding,
the rate-limit decision for key
`rate_limit:<tier>:<identifier>:<windowStart>` is: deny with
`remaining = 0` and `resetTime = windowStart + windowMs` (strictly in the
future) when the current count has reached the tier limit; otherwise the
counter under that key is incremented, its expiry set to
`ceil(windowMs / 1000)` seconds, and the decision is allow with
non-negative `remaining = limit - count - 1`. -/
theorem C3_rate_limit_decision (store : Store) (tierName identifier : String)
    (cfg : TierConfig) (now : Nat) (hw : 0 < cfg.windowMs) :
    ((store.counts (windowKeyOf tierName identifier cfg now)).getD 0 ≥ cfg.requests →
      (checkRateLimit true store false false tierName identifier cfg now).1 =
        { allowed := false, remaining := 0,
          resetTime := windowStartOf cfg now + cfg.windowMs, tier := some tierName } ∧
      now < windowStartOf cfg now + cfg.windowMs) ∧
    ((store.counts (windowKeyOf tierName identifier cfg now)).getD 0 < cfg.requests →
      (checkRateLimit true store false false tierName identifier cfg now).1 =
        { allowed := true,
          remaining := (cfg.requests : Int) -
            (store.counts (windowKeyOf tierName identifier cfg now)).getD 0 - 1,
          resetTime := windowStartOf cfg now + cfg.windowMs, tier := some tierName } ∧
      0 ≤ (checkRateLimit true store false false tierName identifier cfg now).1.remaining ∧
      now < windowStartOf cfg now + cfg.windowMs ∧
      (checkRateLimit true store false false tierName identifier cfg now).2.counts
          (windowKeyOf tierName identifier cfg now) =
        some ((store.counts (windowKeyOf tierName identifier cfg now)).getD 0 + 1) ∧
      (checkRateLimit true store false false tierName identifier cfg now).2.expiry
          (windowKeyOf tierName identifier cfg now) =
        some ((cfg.windowMs + 999) / 1000)) := by
  have hfuture : now < windowStartOf cfg now + cfg.windowMs := by
    have h1 : cfg.windowMs * (now / cfg.windowMs) + now % cfg.windowMs = now :=
      Nat.div_add_mod now cfg.windowMs
    have h2 : now % cfg.windowMs < cfg.windowMs := Nat.mod_lt now hw
    have h3 : windowStartOf cfg now = cfg.windowMs * (now / cfg.windowMs) := by
      simp [windowStartOf, Nat.mul_comm]
    omega
  constructor
  · intro hge
    refine ⟨?_, hfuture⟩
    simp [checkRateLimit, hge]
  · intro hlt
    have hnge : ¬(store.counts (windowKeyOf tierName identifier cfg now)).getD 0 ≥
        cfg.requests := by omega
    refine ⟨?_, ?_, hfuture, ?_, ?_⟩
    · simp [checkRateLimit, hnge]
    · simp [checkRateLimit, hnge]; omega
    · simp [checkRateLimit, hnge]
    · simp [checkRateLimit, hnge]

/-- Witness for C3: tier limit 3 in a 60000 ms window at `now = 123456`
(window start 120000).  With the counter absent the request is allowed
with `remaining = 2` and the counter set to 1 with a 60-second expiry;
with the counter at 3 the request is denied with `remaining = 0` and reset
at 180000. -/
theorem C3_rate_limit_decision_witness :
    (checkRateLimit true ⟨fun _ => none, fun _ => none⟩ false false
        "basic" "ip:1.2.3.4" ⟨3, 60000⟩ 123456).1 =
      { allowed := true, remaining := 2, resetTime := 180000, tier := some "basic" } ∧
    (checkRateLimit true ⟨fun _ => none, fun _ => none⟩ false false
        "basic" "ip:1.2.3.4" ⟨3, 60000⟩ 123456).2.counts
        (windowKeyOf "basic" "ip:1.2.3.4" ⟨3, 60000⟩ 123456) = some 1 ∧
    (checkRateLimit true ⟨fun _ => none, fun _ => none⟩ false false
        "basic" "ip:1.2.3.4" ⟨3, 60000⟩ 123456).2.expiry
        (windowKeyOf "basic" "ip:1.2.3.4" ⟨3, 60000⟩ 123456) = some 60 ∧
    (checkRateLimit true ⟨fun _ => some 3, fun _ => none⟩ false false
        "basic" "ip:1.2.3.4" ⟨3, 60000⟩ 123456).1 =
      { allowed := false, remaining := 0, resetTime := 180000, tier := some "basic" } := by
  have hallow := (C3_rate_limit_decision ⟨fun _ => none, fun _ => none⟩
    "basic" "ip:1.2.3.4" ⟨3, 60000⟩ 123456 (by decide)).2 (by decide)
  have hdeny := (C3_rate_limit_decision ⟨fun _ => some 3, fun _ => none⟩
    "basic" "ip:1.2.3.4" ⟨3, 60000⟩ 123456 (by decide)).1 (by decide)
  refine ⟨?_, ?_, ?_, ?_⟩
  · rw [hallow.1]; rfl
  · rw [hallow.2.2.2.1]; rfl
  · rw [hallow.2.2.2.2]; rfl
  · rw [hdeny.1]; rfl

/-- C4 fails on the code: `makeRequest` does convert the axios timeout
(`code === 'ECONNABORTED'`) into a `GATEWAY_TIMEOUT` / 504 `GatewayError`,
but when the budget is exhausted `forwardRequest` re-passes that already
mapped error through `mapUpstreamError`, which recognises neither its
`name` (`'GatewayError'`) nor any errno `code` nor a `response`, and so
surfaces `BAD_GATEWAY` with status 502 instead of `GATEWAY_TIMEOUT` / 504.
Shown here with a one-attempt budget (`retries = 0`) and with the default
four-attempt budget (`retries = 3`), the upstream timing out on every
attempt. -/
theorem C4_timeout_surfaced_as_bad_gateway :
    attemptResult (.transport "ECONNABORTED" "Error") "user-service:80" =
      .error (createError "Request timeout" 504 "GATEWAY_TIMEOUT") ∧
    forwardRequest "user-service:80"
        (List.replicate 1 (.transport "ECONNABORTED" "Error")) =
      (.thrown (mkGatewayError "Unknown error from service user-service:80"
        502 "BAD_GATEWAY"), 1) ∧
    forwardRequest "user-service:80"
        (List.replicate 4 (.transport "ECONNABORTED" "Error")) =
      (.thrown (mkGatewayError "Unknown error from service user-service:80"
        502 "BAD_GATEWAY"), 4) := by
  refine ⟨rfl, rfl, rfl⟩

/-- C5: whenever the limiter's infrastructure fails — the counter store is
not connected, the count read fails, or the increment round trip fails —
the decision is allow with `remaining = -1`, and the middleware lets the
request proceed rather than rejecting it. -/
theorem C5_rate_limit_fail_open (connected : Bool) (store : Store)
    (getFails incrFails : Bool) (tierName identifier : String)
    (cfg : TierConfig) (now : Nat)
    (hfail : connected = false ∨ getFails = true ∨
      (incrFails = true ∧
        (store.counts (windowKeyOf tierName identifier cfg now)).getD 0 < cfg.requests)) :
    (checkRateLimit connected store getFails incrFails tierName identifier cfg now).1.allowed =
      true ∧
    (checkRateLimit connected store getFails incrFails tierName identifier cfg now).1.remaining =
      -1 ∧
    rateLimitMiddlewareStep
      (checkRateLimit connected store getFails incrFails tierName identifier cfg now).1 =
      .proceed := by
  have hdec :
      (checkRateLimit connected store getFails incrFails tierName identifier cfg now).1.allowed =
        true ∧
      (checkRateLimit connected store getFails incrFails tierName identifier cfg now).1.remaining =
        -1 := by
    rcases hfail with h | h | ⟨h, hlt⟩
    · subst h; simp [checkRateLimit]
    · subst h; cases connected <;> simp [checkRateLimit]
    · subst h
      cases connected with
      | false => simp [checkRateLimit]
      | true =>
          cases hg : getFails with
          | true => simp [checkRateLimit]
          | false =>
              have hnge : ¬(store.counts (windowKeyOf tierName identifier cfg now)).getD 0 ≥
                  cfg.requests := by omega
              simp [checkRateLimit, hnge]
  exact ⟨hdec.1, hdec.2, by simp [rateLimitMiddlewareStep, hdec.1]⟩

/-- Witness for C5 at concrete inputs: the store disconnected; the get
round trip failing; the increment round trip failing below the limit.  In
each case the decision is allow / `remaining = -1` and the middleware
proceeds. -/
theorem C5_rate_limit_fail_open_witness :
    (checkRateLimit false ⟨fun _ => some 99, fun _ => none⟩ false false
        "basic" "ip:1.2.3.4" ⟨3, 60000⟩ 123456).1.allowed = true ∧
    (checkRateLimit true ⟨fun _ => some 99, fun _ => none⟩ true false
        "basic" "ip:1.2.3.4" ⟨3, 60000⟩ 123456).1.remaining = -1 ∧
    rateLimitMiddlewareStep
      (checkRateLimit true ⟨fun _ => some 1, fun _ => none⟩ false true
        "basic" "ip:1.2.3.4" ⟨3, 60000⟩ 123456).1 = .proceed := by
  refine ⟨?_, ?_, ?_⟩
  · exact (C5_rate_limit_fail_open false ⟨fun _ => some 99, fun _ => none⟩ false false
      "basic" "ip:1.2.3.4" ⟨3, 60000⟩ 123456 (Or.inl rfl)).1
  · exact (C5_rate_limit_fail_open true ⟨fun _ => some 99, fun _ => none⟩ true false
      "basic" "ip:1.2.3.4" ⟨3, 60000⟩ 123456 (Or.inr (Or.inl rfl))).2.1
  · exact (C5_rate_limit_fail_open true ⟨fun _ => some 1, fun _ => none⟩ false true
      "basic" "ip:1.2.3.4" ⟨3, 60000⟩ 123456
      (Or.inr (Or.inr ⟨rfl, by decide⟩))).2.2

/-- If no compiled route passes the method-and-pattern test, the walk
returns nothing. -/
theorem findRoute_eq_none (method path : String) :
    ∀ routes : List CompiledRoute,
      (∀ r ∈ routes, (r.methods.contains method && r.matchesPath path) = false) →
      findRoute routes method path = none := by
  intro routes
  induction routes with
  | nil => intro _; rfl
  | cons r rest ih =>
      intro hall
      have hr := hall r (by simp)
      rw [findRoute, if_neg (by rw [hr]; simp)]
      exact ih (fun x hx => hall x (by simp [hx]))

/-- C6: the resolver returns the first route, in declaration order, whose
method set contains the request method and whose compiled pattern matches
the path; when a route exists that passes both tests the walk succeeds;
when no route passes — in particular when the path matches some route but
the method is in no matching route's method set — the result is a
`ROUTE_NOT_FOUND` error with status 404; status 405 is produced by the
entry layer's method validator exactly for HTTP verbs outside the global
allow-list. -/
theorem C6_route_resolution :
    (∀ (routes : List CompiledRoute) (method path : String) (r : CompiledRoute),
      findRoute routes method path = some r →
      (r.methods.contains method && r.matchesPath path) = true ∧
      ∃ pre post, routes = pre ++ r :: post ∧
        ∀ x ∈ pre, (x.methods.contains method && x.matchesPath path) = false) ∧
    (∀ (routes : List CompiledRoute) (method path : String),
      (∃ r ∈ routes, (r.methods.contains method && r.matchesPath path) = true) →
      ∃ r, findRoute routes method path = some r) ∧
    (∀ (routes : List CompiledRoute) (method path : String),
      (∀ r ∈ routes, r.matchesPath path = true → r.methods.contains method = false) →
      ∃ e, routeResolve routes method path = .error e ∧
        e.statusCode = some 404 ∧ e.errorCode = some "ROUTE_NOT_FOUND") ∧
    (∀ method : String, validateMethod method = none ↔
      allowedMethods.contains method = true) ∧
    (∀ method : String, allowedMethods.contains method = false →
      validateMethod method = some (405, "Method Not Allowed")) := by
  refine ⟨?_, ?_, ?_, ?_, ?_⟩
  · intro routes method path
    induction routes with
    | nil => intro r h; simp [findRoute] at h
    | cons x rest ih =>
        intro r h
        by_cases hx : (x.methods.contains method && x.matchesPath path) = true
        · rw [findRoute, if_pos hx] at h
          obtain rfl : x = r := by injection h
          exact ⟨hx, [], rest, rfl, by intro y hy; simp at hy⟩
        · rw [findRoute, if_neg hx] at h
          obtain ⟨hr, pre, post, hsplit, hpre⟩ := ih r h
          refine ⟨hr, x :: pre, post, by rw [hsplit]; rfl, ?_⟩
          intro y hy
          rcases List.mem_cons.mp hy with rfl | hy'
          · exact Bool.not_eq_true _ ▸ (Bool.eq_false_iff.mpr hx)
          · exact hpre y hy'
  · intro routes method path hex
    induction routes with
    | nil => simp at hex
    | cons x rest ih =>
        by_cases hx : (x.methods.contains method && x.matchesPath path) = true
        · exact ⟨x, by rw [findRoute, if_pos hx]⟩
        · obtain ⟨r, hr, hp⟩ := hex
          rcases List.mem_cons.mp hr with rfl | hr'
          · exact absurd hp hx
          · obtain ⟨r', hr'⟩ := ih ⟨r, hr', hp⟩
            exact ⟨r', by rw [findRoute, if_neg hx]; exact hr'⟩
  · intro routes method path hmm
    have hnone : findRoute routes method path = none := by
      apply findRoute_eq_none
      intro r hr
      by_cases hmp : r.matchesPath path = true
      · rw [hmm r hr hmp, Bool.false_and]
      · rw [Bool.eq_false_iff.mpr hmp, Bool.and_false]
    exact ⟨_, by rw [routeResolve, hnone], rfl, rfl⟩
  · intro method
    constructor
    · intro h
      by_cases hc : allowedMethods.contains method = true
      · exact hc
      · rw [validateMethod, if_neg hc] at h; exact absurd h (by simp)
    · intro h; rw [validateMethod, if_pos h]
  · intro method h
    rw [validateMethod, if_neg (by rw [h]; simp)]

/-- Witness for C6 at concrete routes: with a GET-only `/api/users` route
followed by a catch-all GET route, a `GET /api/users` resolves to the
first; a `POST /api/users` — path matched, method not in any matching
route's set — resolves to `ROUTE_NOT_FOUND` / 404; `TRACE` is outside the
global allow-list and draws the entry layer's 405. -/
theorem C6_route_resolution_witness :
    (∃ r, findRoute
      [⟨["GET"], fun p => p == "/api/users"⟩, ⟨["GET"], fun _ => true⟩]
      "GET" "/api/users" = some r) ∧
    (∃ e, routeResolve [⟨["GET"], fun p => p == "/api/users"⟩]
        "POST" "/api/users" = .error e ∧
      e.statusCode = some 404 ∧ e.errorCode = some "ROUTE_NOT_FOUND") ∧
    validateMethod "TRACE" = some (405, "Method Not Allowed") := by
  obtain ⟨h1, h2, h3, h4, h5⟩ := C6_route_resolution
  refine ⟨?_, ?_, ?_⟩
  · exact h2 _ "GET" "/api/users" ⟨⟨["GET"], fun p => p == "/api/users"⟩, by simp, by decide⟩
  · exact h3 _ "POST" "/api/users" (by intro r hr _; simp at hr; subst hr; decide)
  · exact h5 "TRACE" (by decide)

/-- The base backoff delay is at least 1000 ms, hence positive. -/
theorem retryDelay_pos (i : Nat) : 0 < retryDelay i := by
  have h : 0 < 1000 * 2 ^ (i - 1) := by positivity
  unfold retryDelay
  omega

/-- C7: before zero-based retry attempt `i ≥ 1` the dispatcher waits
`min(1000 × 2^(i-1), 10000)` milliseconds plus a jitter
`Math.random() * 0.1 * delay`, which for any draw `r ∈ [0, 1)` lies in
`[0, 0.1 × delay)`; the base delays are monotonically non-decreasing and
never exceed 10000 ms; the number of attempts never exceeds the budget of
`retries + 1`. -/
theorem C7_retry_backoff :
    (∀ i : Nat, retryDelay i = min (1000 * 2 ^ (i - 1)) 10000) ∧
    (∀ (r : ℚ) (i : Nat), 0 ≤ r → r < 1 →
      (retryDelay i : ℚ) ≤ retryWait r i ∧
      retryWait r i < (retryDelay i : ℚ) + 1 / 10 * (retryDelay i : ℚ)) ∧
    (∀ i j : Nat, i ≤ j → retryDelay i ≤ retryDelay j) ∧
    (∀ i : Nat, retryDelay i ≤ 10000) ∧
    (∀ (serviceName : String) (outcomes : List AttemptOutcome) (retries : Nat),
      outcomes.length = retries + 1 →
      (forwardRequest serviceName outcomes).2 ≤ retries + 1) := by
  refine ⟨fun i => rfl, ?_, ?_, ?_, ?_⟩
  · intro r i hr0 hr1
    have hd : (0 : ℚ) < (retryDelay i : ℚ) := by exact_mod_cast retryDelay_pos i
    constructor
    · have : 0 ≤ r * (1 / 10) * (retryDelay i : ℚ) := by positivity
      unfold retryWait
      linarith
    · have hlt : r * (1 / 10) * (retryDelay i : ℚ) < 1 / 10 * (retryDelay i : ℚ) := by
        rw [mul_assoc]
        exact mul_lt_of_lt_one_left (by positivity) hr1
      unfold retryWait
      linarith
  · intro i j hij
    unfold retryDelay
    have hpow : 1000 * 2 ^ (i - 1) ≤ 1000 * 2 ^ (j - 1) :=
      Nat.mul_le_mul_left 1000 (Nat.pow_le_pow_right (by omega) (by omega))
    exact min_le_min hpow le_rfl
  · intro i
    unfold retryDelay
    exact min_le_right _ _
  · intro serviceName outcomes retries hlen
    have := forwardLoop_attempts_le serviceName outcomes none
    rw [hlen] at this
    exact this

/-- Witness for C7 at concrete inputs: a jitter draw of `1/2` before
attempt 3 (base delay 4000 ms) waits between 4000 and 4400 ms; the base
delay before attempt 2 does not exceed the one before attempt 5; a
two-outcome budget yields at most two attempts. -/
theorem C7_retry_backoff_witness :
    (retryDelay 3 : ℚ) ≤ retryWait (1 / 2) 3 ∧
    retryWait (1 / 2) 3 < (retryDelay 3 : ℚ) + 1 / 10 * (retryDelay 3 : ℚ) ∧
    retryDelay 2 ≤ retryDelay 5 ∧
    (forwardRequest "svc" [.response 200, .response 200]).2 ≤ 1 + 1 := by
  obtain ⟨h1, h2, h3, h4, h5⟩ := C7_retry_backoff
  obtain ⟨ha, hb⟩ := h2 (1 / 2) 3 (by norm_num) (by norm_num)
  exact ⟨ha, hb, h3 2 5 (by norm_num), h5 "svc" [.response 200, .response 200] 1 rfl⟩

/-- Every list `l` is a (Boolean) prefix of `l ++ r`. -/
theorem isPrefixOf_append (l r : List Char) : l.isPrefixOf (l ++ r) = true := by
  induction l with
  | nil => simp [List.isPrefixOf]
  | cons a t ih => simp [List.isPrefixOf, ih]

/-- C8: with `stripPath = true` the target URL is the upstream base with
any trailing slash stripped, followed by the request path with the route
pattern (minus a trailing `/\x2a`) removed as a prefix — an empty
remainder becoming `/` — followed by `?` and the query string when one is
present; in particular a route with pattern `/api/x` and base `http://u`
receives `GET /api/x/y?q=1` as `GET http://u/y?q=1`. -/
theorem C8_strip_path_target_url :
    (∀ base pat rest query : List Char, rest.head? = some '/' →
      buildTargetUrl true pat base (stripStar pat ++ rest) query =
        stripTrailingSlash base ++ rest ++
          (if query = [] then [] else '?' :: query)) ∧
    (∀ base pat query : List Char,
      buildTargetUrl true pat base (stripStar pat) query =
        stripTrailingSlash base ++ '/' ::
          (if query = [] then [] else '?' :: query)) ∧
    buildTargetUrlS true "/api/x" "http://u" "/api/x/y" "q=1" = "http://u/y?q=1" := by
  refine ⟨?_, ?_, by rfl⟩
  · intro base pat rest query hhead
    cases rest with
    | nil => simp at hhead
    | cons c t =>
        obtain rfl : c = '/' := by
          simpa using hhead
        simp only [buildTargetUrl, isPrefixOf_append, if_pos rfl, List.drop_left,
          List.head?_cons, reduceCtorEq, if_true]
        by_cases hq : query = []
        · simp [hq]
        · simp [hq, List.append_assoc]
  · intro base pat query
    have hpref : (stripStar pat).isPrefixOf (stripStar pat) = true := by
      have h := isPrefixOf_append (stripStar pat) []
      rwa [List.append_nil] at h
    have hdrop : (stripStar pat).drop (stripStar pat).length = ([] : List Char) := by
      simp
    simp only [buildTargetUrl, hpref, hdrop, if_true]
    by_cases hq : query = []
    · simp [hq]
    · simp [hq]

/-- Witness for C8 at concrete inputs: the general prefix-strip equation
instantiated at pattern `/api/x`, base `http://u`, remainder `/y` and
query `q=1`. -/
theorem C8_strip_path_target_url_witness :
    buildTargetUrl true "/api/x".toList "http://u".toList
        (stripStar "/api/x".toList ++ "/y".toList) "q=1".toList =
      stripTrailingSlash "http://u".toList ++ "/y".toList ++
        (if "q=1".toList = [] then [] else '?' :: "q=1".toList) := by
  obtain ⟨h1, h2, h3⟩ := C8_strip_path_target_url
  exact h1 "http://u".toList "/api/x".toList "/y".toList "q=1".toList rfl

/-- C9 as stated is false: the upstream error mapper is not idempotent.
At the concrete input of a connection-refused error, the first application
produces `SERVICE_UNAVAILABLE` / 503 but applying the mapper to that
already-produced error yields `BAD_GATEWAY` / 502 — a different code and
status, not the error unchanged. -/
theorem C9_counterexample_mapper_not_idempotent :
    (mapUpstreamError { code := some "ECONNREFUSED" } "svc").errorCode =
      some "SERVICE_UNAVAILABLE" ∧
    (mapUpstreamError { code := some "ECONNREFUSED" } "svc").statusCode = some 503 ∧
    (mapUpstreamError (mapUpstreamError { code := some "ECONNREFUSED" } "svc")
        "svc").errorCode = some "BAD_GATEWAY" ∧
    (mapUpstreamError (mapUpstreamError { code := some "ECONNREFUSED" } "svc")
        "svc").statusCode = some 502 ∧
    mapUpstreamError (mapUpstreamError { code := some "ECONNREFUSED" } "svc") "svc" ≠
      mapUpstreamError { code := some "ECONNREFUSED" } "svc" := by
  refine ⟨rfl, rfl, rfl, rfl, by decide⟩

/-- Everything `mapUpstreamError` produces is a `GatewayError`: no errno
`code`, name `'GatewayError'`, no attached response. -/
theorem mapUpstreamError_shape (e : JsError) (serviceName : String) :
    (mapUpstreamError e serviceName).code = none ∧
    (mapUpstreamError e serviceName).name = "GatewayError" ∧
    (mapUpstreamError e serviceName).response = none := by
  unfold mapUpstreamError
  split
  · exact ⟨rfl, rfl, rfl⟩
  · split
    · exact ⟨rfl, rfl, rfl⟩
    · split
      · exact ⟨rfl, rfl, rfl⟩
      · exact ⟨rfl, rfl, rfl⟩

/-- C9 (amended): the mapper is not idempotent; instead, re-applying
`mapUpstreamError` to any error it has already produced always lands in
the fallback branch — its outputs carry no errno `code`, no `response`,
and the name `'GatewayError'` — and yields a `BAD_GATEWAY` error with
status 502. -/
theorem C9_remapped_error_is_bad_gateway (e : JsError) (s s' : String) :
    (mapUpstreamError (mapUpstreamError e s) s').errorCode = some "BAD_GATEWAY" ∧
    (mapUpstreamError (mapUpstreamError e s) s').statusCode = some 502 := by
  obtain ⟨hc, hn, hr⟩ := mapUpstreamError_shape e s
  rw [mapUpstreamError, if_neg (by rw [hc]; simp), if_neg (by rw [hc, hn]; simp), hr]
  exact ⟨rfl, rfl⟩

/-- C10: a route configured with `retries = 0` is normalized to the
default `3` (JS `route.retries || 3` treats `0` as falsy), both by
`initializeRoutes` and by `addRoute`; `validateRoute` does not even
examine a zero `retries` (the check is guarded by the value's own
truthiness), so such a route passes validation exactly as if `retries`
were absent. -/
theorem C10_zero_retries_replaced_by_default :
    (∀ r : RouteConfig, r.retries = some 0 → (normalizeRoute r).retries = 3) ∧
    (∀ (cfg : List RouteConfig) (r : RouteConfig), r ∈ cfg → r.retries = some 0 →
      normalizeRoute r ∈ initializeRoutes cfg ∧ (normalizeRoute r).retries = 3) ∧
    (∀ (urlOk : String → Bool) (r : RouteConfig), r.retries = some 0 →
      validateRoute urlOk r = validateRoute urlOk { r with retries := none }) ∧
    (∀ (urlOk : String → Bool) (routes rs : List NormalizedRoute)
        (r : RouteConfig) (route : NormalizedRoute),
      r.retries = some 0 → addRoute urlOk routes r = .ok (rs, route) →
      route.retries = 3 ∧ rs = routes ++ [route]) := by
  have hnorm : ∀ r : RouteConfig, r.retries = some 0 → (normalizeRoute r).retries = 3 := by
    intro r h
    simp [normalizeRoute, orFalsyInt, h]
  refine ⟨hnorm, ?_, ?_, ?_⟩
  · intro cfg r hmem h
    exact ⟨List.mem_map_of_mem normalizeRoute hmem, hnorm r h⟩
  · intro urlOk r h
    simp [validateRoute, h]
  · intro urlOk routes rs r route h hok
    unfold addRoute at hok
    by_cases hv : validateRoute urlOk r ≠ []
    · rw [if_pos hv] at hok; exact absurd hok (by simp)
    · rw [if_neg hv] at hok
      simp only [Except.ok.injEq, Prod.mk.injEq] at hok
      obtain ⟨hrs, hroute⟩ := hok
      subst hroute
      exact ⟨hnorm r h, hrs.symm⟩

/-- Witness for C10 at a concrete route `{path: '/a', target: 'http://u',
retries: 0}`: normalization yields `retries = 3`; validation treats the
zero exactly as an absent field; `addRoute` appends the normalized route
with `retries = 3`. -/
theorem C10_zero_retries_replaced_by_default_witness :
    (normalizeRoute { path := "/a", target := "http://u", retries := some 0 }).retries = 3 ∧
    validateRoute (fun _ => true) { path := "/a", target := "http://u", retries := some 0 } =
      validateRoute (fun _ => true) { path := "/a", target := "http://u", retries := none } ∧
    (normalizeRoute { path := "/a", target := "http://u", retries := some 0 }).retries = 3 ∧
    [normalizeRoute { path := "/a", target := "http://u", retries := some 0 }] =
      [] ++ [normalizeRoute { path := "/a", target := "http://u", retries := some 0 }] := by
  obtain ⟨h1, h2, h3, h4⟩ := C10_zero_retries_replaced_by_default
  obtain ⟨ha, hb⟩ := h4 (fun _ => true) []
    [normalizeRoute { path := "/a", target := "http://u", retries := some 0 }]
    { path := "/a", target := "http://u", retries := some 0 }
    (normalizeRoute { path := "/a", target := "http://u", retries := some 0 }) rfl rfl
  exact ⟨h1 _ rfl, h3 (fun _ => true) _ rfl, ha, hb⟩

end Gateway
